import Mathlib

/-!
# LuckyFive round-lifecycle engine: a shallow embedding

This file embeds the state-relevant behaviour of the LuckyFive wagering
server.  The repository holds three variants of the same engine:

* the timer-based engine (`game/luckyFive.js`, first variant): rounds are
  driven by three `setTimeout` callbacks and the round rollover computes the
  successor start deterministically from `startTime + ROUND_DURATION_MS`;
* the interval-loop engine (second variant of the same file): a 500 ms
  `setInterval` loop advances the round through `_startAnnounced`,
  `_freezeAnnounced` and `winningLine` guards, and the successor round is
  created with `createRound()` at the current wall clock;
* `server.js`, a third re-implementation with an `isBettingOpen` flag.

JS `Map`s keyed by socket id or user id are modelled as association lists
(which also preserve JS `Map` insertion order), JS numbers as `Int`, the
`Math.floor(Math.random() * 5)` draw as an explicit `Fin 5` input, and the
per-user SQL transactions as pure updates of a balances list plus an
append-only transactions list.  Each handler is a pure function from engine
state and message payload to the successor state and the emitted reply.
-/

set_option autoImplicit false

namespace LuckyFive

/-- Association-list lookup; the model of `Map.get` / a keyed SQL `SELECT`. -/
def alookup {κ α : Type} [DecidableEq κ] : List (κ × α) → κ → Option α
  | [], _ => none
  | (k', v) :: rest, k => if k' = k then some v else alookup rest k

/-- Association-list update; the model of `Map.set`: replace the entry in
place if the key is present, else append it. -/
def aset {κ α : Type} [DecidableEq κ] : List (κ × α) → κ → α → List (κ × α)
  | [], k, v => [(k, v)]
  | (k', v') :: rest, k, v =>
    if k' = k then (k, v) :: rest else (k', v') :: aset rest k v

/-- Lookup that defaults to `0`, the model of `obj[key] || 0` on a numeric
JS object field. -/
def lookupD (m : List (String × Int)) (k : String) : Int :=
  (alookup m k).getD 0

-- ---------------- CONFIG (from game/luckyFive.js, timer-based variant) ----
def FREEZE_OFFSET_MS : Int := 25000
def RESULT_OFFSET_MS : Int := 30000
def ROUND_DURATION_MS : Int := 40000
def WIN_MULTIPLIER : Int := 5

/-- A socket session: `userSessions.set(socket.id, { userId, username, balance })`. -/
structure Session where
  userId : Nat
  username : String
  balance : Int
deriving DecidableEq

/-- The snapshot stored by `submit_final_bets`:
`currentRound.finalBets.set(socket.id, { userId, bets, totalAmount })`. -/
structure Snapshot where
  userId : Nat
  bets : List (String × Int)
  totalAmount : Int
deriving DecidableEq

/-- A row of the `transactions` table. -/
structure Txn where
  userId : Nat
  amount : Int
  kind : String
  description : String
deriving DecidableEq

/-- The in-memory round object built by `createRound` in the timer-based
variant (timers and the persisted DB id are irrelevant to the modelled
state; `persistedRoundId` is kept because result events fall back to
`startTime` when it is absent). -/
structure Round where
  startTime : Int
  freezeTime : Int
  resultTime : Int
  endTime : Int
  persistedRoundId : Option Int
  winningLine : Option Nat
  bets : List (String × List (String × Int))
  finalBets : List (String × Snapshot)
deriving DecidableEq

/-- `createRound(startTime)` of the timer-based variant. -/
def createRound (s : Int) : Round :=
  { startTime := s
    freezeTime := s + FREEZE_OFFSET_MS
    resultTime := s + RESULT_OFFSET_MS
    endTime := s + ROUND_DURATION_MS
    persistedRoundId := none
    winningLine := none
    bets := []
    finalBets := [] }

/-- `join_game` reports `isBettingOpen: !(Date.now() >= currentRound.freezeTime)`;
this is the OPEN phase predicate of the timer-based engine. -/
def isBettingOpen (r : Round) (now : Int) : Bool :=
  !(r.freezeTime ≤ now)

/-- The mutable engine state: current round, the `userSessions` map, and the
`users.balance` / `transactions` tables behind the ledger gateway. -/
structure EngineState where
  round : Round
  sessions : List (String × Session)
  balances : List (Nat × Int)
  transactions : List Txn
deriving DecidableEq

/-- `UPDATE users SET balance = balance - ? WHERE id = ?`. -/
def debitBalance (bs : List (Nat × Int)) (uid : Nat) (amt : Int) : List (Nat × Int) :=
  bs.map fun p => if p.1 = uid then (p.1, p.2 - amt) else p

/-- `UPDATE users SET balance = balance + ? WHERE id = ?`. -/
def creditBalance (bs : List (Nat × Int)) (uid : Nat) (amt : Int) : List (Nat × Int) :=
  bs.map fun p => if p.1 = uid then (p.1, p.2 + amt) else p

-- ---------------- place_bet ----------------

/-- The payload of a `place_bet` message. -/
structure BetData where
  line : String
  amount : Int
  operation : String
deriving DecidableEq

/-- The `place_bet_ack` reply: `{ success: true, bets: betsObj }`. -/
structure PlaceBetAck where
  success : Bool
  bets : List (String × Int)
deriving DecidableEq

/-- The zeroed wager object installed on first use:
`{ line1: 0, line2: 0, line3: 0, line4: 0, line5: 0 }`. -/
def zeroWager : List (String × Int) :=
  [("line1", 0), ("line2", 0), ("line3", 0), ("line4", 0), ("line5", 0)]

/-- The `place_bet` handler of the timer-based variant (the interval-loop
variant's handler is line-for-line the same).  It consults neither the
session map, the clock, nor the shape of `data`: `add` sums the incoming
amount onto `betsObj[line] || 0`, `remove` zeroes `betsObj[line]`, and the
ack always reports `success: true` with the stored wager object. -/
def placeBet (st : EngineState) (sid : String) (d : BetData) :
    EngineState × PlaceBetAck :=
  let betsObj := (alookup st.round.bets sid).getD zeroWager
  let betsObj' :=
    if d.operation = "add" then aset betsObj d.line (lookupD betsObj d.line + d.amount)
    else if d.operation = "remove" then aset betsObj d.line 0
    else betsObj
  ({ st with round := { st.round with bets := aset st.round.bets sid betsObj' } },
   { success := true, bets := betsObj' })

-- ---------------- submit_final_bets ----------------

/-- The payload of a `submit_final_bets` message; `totalAmount` is `none`
when the client omits the field. -/
structure Payload where
  roundId : Int
  bets : List (String × Int)
  totalAmount : Option Int
deriving DecidableEq

/-- The reply to `submit_final_bets`: `bet_accepted { newBalance }` or
`bet_error { message }`. -/
inductive SubmitResult where
  | accepted (newBalance : Int)
  | rejected (message : String)
deriving DecidableEq

def isAccepted : SubmitResult → Bool
  | .accepted _ => true
  | .rejected _ => false

/-- `Object.values(bets).reduce((s, v) => s + Number(v || 0), 0)`. -/
def sumBets (bs : List (String × Int)) : Int :=
  bs.foldl (fun s p => s + p.2) 0

/-- `Number(payload.totalAmount || Object.values(bets).reduce(...))`: the
client-sent total is used whenever it is present and truthy (non-zero);
only a missing or zero field falls back to the sum of the lines. -/
def effectiveTotal (p : Payload) : Int :=
  match p.totalAmount with
  | none => sumBets p.bets
  | some t => if t = 0 then sumBets p.bets else t

/-- The "bet" ledger rows inserted inside the finalize transaction: one per
entry of the submitted `bets` object with `Number(amt || 0) > 0`. -/
def betTxns (uid : Nat) (roundStart : Int) (bets : List (String × Int)) : List Txn :=
  (bets.filter fun p => 0 < p.2).map fun p =>
    { userId := uid, amount := p.2, kind := "bet",
      description := "Bet " ++ p.1 ++ " on round " ++ toString roundStart }

/-- The `submit_final_bets` handler of the timer-based variant.  In order:
reject when the socket has no authenticated session (`!session ||
!session.userId`); reject when `payload.roundId` differs from
`currentRound.startTime`; then, in one DB transaction, read the balance
`FOR UPDATE`, reject when the user row is missing or `currentBalance <
totalAmount`, else debit `totalAmount`, insert a "bet" transaction per
positive line, commit, store the snapshot in `finalBets`, and refresh the
cached session balance.  Every rejection rolls the transaction back, so a
rejected submission leaves the state untouched. -/
def submitFinalBets (st : EngineState) (sid : String) (p : Payload) :
    EngineState × SubmitResult :=
  match alookup st.sessions sid with
  | none => (st, SubmitResult.rejected "Not authenticated")
  | some session =>
    if session.userId = 0 then (st, SubmitResult.rejected "Not authenticated")
    else if p.roundId ≠ st.round.startTime then (st, SubmitResult.rejected "Round mismatch")
    else
      match alookup st.balances session.userId with
      | none => (st, SubmitResult.rejected "User not found")
      | some currentBalance =>
        let total := effectiveTotal p
        if currentBalance < total then (st, SubmitResult.rejected "Insufficient balance")
        else
          ({ round := { st.round with
               finalBets := aset st.round.finalBets sid
                 { userId := session.userId, bets := p.bets, totalAmount := total } },
             sessions := aset st.sessions sid { session with balance := currentBalance - total },
             balances := debitBalance st.balances session.userId total,
             transactions := st.transactions ++ betTxns session.userId st.round.startTime p.bets },
           SubmitResult.accepted (currentBalance - total))

-- ---------------- result settlement (emitRoundResultAndProcess) ----------

/-- The protocol events emitted during settlement. -/
inductive GameEvent where
  | startRound (roundId : Int)
  | freezeBets (roundId : Int)
  | roundResult (roundId : Int) (winningLine : Nat)
  | targetedRoundResult (sid : String) (roundId : Int) (winningLine : Nat)
      (winAmount : Int) (newBalance : Int)
deriving DecidableEq

/-- `winAmount = Number(userBets[`line${winningLine}`] || 0) * WIN_MULTIPLIER`. -/
def winAmountFor (snap : Snapshot) (winner : Nat) : Int :=
  lookupD snap.bets ("line" ++ toString winner) * WIN_MULTIPLIER

/-- The "win" ledger row inserted when a snapshot pays out. -/
def winTxn (uid : Nat) (amount : Int) (winner : Nat) (rid : Int) : Txn :=
  { userId := uid, amount := amount, kind := "win",
    description := "Win on line " ++ toString winner ++ " round " ++ toString rid }

/-- The payee-notification loop run after each snapshot's payout
transaction: iterate `userSessions` in insertion order, and for the FIRST
session whose `userId` matches, fetch the fresh balance (falling back to the
cached one when the user row is gone), send it a targeted `round_result`,
refresh that session's cached balance, and `break`. -/
def notifyPayee (sessions : List (String × Session)) (balances : List (Nat × Int))
    (uid winner : Nat) (winAmount rid : Int) :
    List (String × Session) × List GameEvent :=
  match sessions with
  | [] => ([], [])
  | (sId, session) :: rest =>
    if session.userId = uid then
      let newBalance := (alookup balances uid).getD session.balance
      ((sId, { session with balance := newBalance }) :: rest,
       [GameEvent.targetedRoundResult sId rid winner winAmount newBalance])
    else
      let r := notifyPayee rest balances uid winner winAmount rid
      ((sId, session) :: r.1, r.2)

/-- Settlement of one `finalBets` snapshot (the body of the
`for (const [socketId, snapshot] of round.finalBets.entries())` loop):
skip when `userId` is falsy; compute `winAmount`; when `winAmount > 0`
credit the account and append a "win" ledger row in one transaction; then
notify the payee's first live session. -/
def settleSnapshot (balances : List (Nat × Int)) (txns : List Txn)
    (sessions : List (String × Session)) (snap : Snapshot) (winner : Nat) (rid : Int) :
    List (Nat × Int) × List Txn × List (String × Session) × List GameEvent :=
  if snap.userId = 0 then (balances, txns, sessions, [])
  else
    let winAmount := winAmountFor snap winner
    let balances' := if 0 < winAmount then creditBalance balances snap.userId winAmount else balances
    let txns' := if 0 < winAmount then txns ++ [winTxn snap.userId winAmount winner rid] else txns
    let notified := notifyPayee sessions balances' snap.userId winner winAmount rid
    (balances', txns', notified.1, notified.2)

/-- `emitRoundResultAndProcess` of the timer-based variant: draw the
winning line (`Math.floor(Math.random() * 5) + 1`, the floor value passed
in as `rand : Fin 5`), settle every `finalBets` snapshot in map order,
broadcast the global `round_result`, and — in the `finally` block — replace
the current round with `createRound(round.startTime + ROUND_DURATION_MS)`,
never consulting the wall clock for the successor's start. -/
def emitRoundResultAndProcess (st : EngineState) (rand : Fin 5) :
    EngineState × List GameEvent :=
  let winner := rand.val + 1
  let rid := st.round.persistedRoundId.getD st.round.startTime
  let folded := st.round.finalBets.foldl
    (fun acc entry =>
      let r := settleSnapshot acc.1 acc.2.1 acc.2.2.1 entry.2 winner rid
      (r.1, r.2.1, r.2.2.1, acc.2.2.2 ++ r.2.2.2))
    (st.balances, st.transactions, st.sessions, ([] : List GameEvent))
  let nextRound := createRound (st.round.startTime + ROUND_DURATION_MS)
  ({ round := nextRound, sessions := folded.2.2.1, balances := folded.1,
     transactions := folded.2.1 },
   folded.2.2.2 ++ [GameEvent.roundResult rid winner])

-- ================= interval-loop variant =================

namespace Interval

-- CONFIG of the interval-loop variant
def ROUND_DURATION_MS : Int := 30000
def FREEZE_OFFSET_MS : Int := 25000
def RESULT_OFFSET_MS : Int := 27000
def WIN_MULTIPLIER : Int := 5

/-- The in-memory round object of the interval-loop variant, including the
`_startAnnounced` / `_freezeAnnounced` flags the loop sets on first firing
(absent fields of a fresh JS object are falsy, modelled as `false`). -/
structure IRound where
  startTime : Int
  freezeTime : Int
  resultTime : Int
  endTime : Int
  winningLine : Option Nat
  startAnnounced : Bool
  freezeAnnounced : Bool
deriving DecidableEq

/-- `createRound()` of the interval-loop variant: every field is derived
from `Date.now()` at the moment of the call. -/
def createRound (now : Int) : IRound :=
  { startTime := now
    freezeTime := now + FREEZE_OFFSET_MS
    resultTime := now + RESULT_OFFSET_MS
    endTime := now + ROUND_DURATION_MS
    winningLine := none
    startAnnounced := false
    freezeAnnounced := false }

/-- The broadcasts of one `setInterval` tick. -/
inductive TickEvent where
  | startRound (roundId : Int)
  | freezeBets (roundId : Int)
  | resultDrawn (roundId : Int) (winningLine : Nat)
deriving DecidableEq

/-- First if-block of the tick:
`if (!currentRound._startAnnounced && now >= currentRound.startTime)`. -/
def tickStart (r : IRound) (now : Int) : IRound × List TickEvent :=
  if r.startAnnounced = false ∧ r.startTime ≤ now then
    ({ r with startAnnounced := true }, [TickEvent.startRound r.startTime])
  else (r, [])

/-- Second if-block of the tick:
`if (!currentRound._freezeAnnounced && now >= currentRound.freezeTime)`. -/
def tickFreeze (r : IRound) (now : Int) : IRound × List TickEvent :=
  if r.freezeAnnounced = false ∧ r.freezeTime ≤ now then
    ({ r with freezeAnnounced := true }, [TickEvent.freezeBets r.startTime])
  else (r, [])

/-- Third if-block of the tick:
`if (!currentRound.winningLine && now >= currentRound.resultTime)` — the JS
guard is number truthiness, so `null` and `0` both count as unset — draw
`Math.floor(Math.random() * 5) + 1` and announce the result. -/
def tickResult (r : IRound) (now : Int) (rand : Fin 5) : IRound × List TickEvent :=
  if r.winningLine.getD 0 = 0 ∧ r.resultTime ≤ now then
    ({ r with winningLine := some (rand.val + 1) },
     [TickEvent.resultDrawn r.startTime (rand.val + 1)])
  else (r, [])

/-- One firing of the 500 ms `setInterval` loop: the three guarded
if-blocks run in order on the current round. -/
def tick (r : IRound) (now : Int) (rand : Fin 5) : IRound × List TickEvent :=
  let s := tickStart r now
  let f := tickFreeze s.1 now
  let w := tickResult f.1 now rand
  (w.1, s.2 ++ f.2 ++ w.2)

/-- The round rollover of the interval-loop variant (the `finally` block of
the async result processing): `currentRound = createRound()` — the
successor's start time is the wall clock at the moment the rollover runs,
not a grid position derived from the completed round. -/
def rolloverRound (_completed : IRound) (now : Int) : IRound :=
  createRound now

end Interval

end LuckyFive

open LuckyFive

-- ================= concrete fixtures for witnesses and counterexamples ====

/-- A fresh round, one authenticated session for user 7, DB balance 1000. -/
def stA : EngineState :=
  { round := createRound 0
    sessions := [("s1", { userId := 7, username := "alice", balance := 1000 })]
    balances := [(7, 1000)]
    transactions := [] }

/-- Scenario A submission: stake 100 on line 3, total left to the server. -/
def pA : Payload := { roundId := 0, bets := [("line3", 100)], totalAmount := none }

/-- A submission whose client-sent `totalAmount` (5) disagrees with the sum
of its lines (100). -/
def pCex : Payload := { roundId := 0, bets := [("line1", 100)], totalAmount := some 5 }

/-- Same session but the user's balance (40) is below the staked total. -/
def stLow : EngineState :=
  { round := createRound 0
    sessions := [("s1", { userId := 7, username := "alice", balance := 40 })]
    balances := [(7, 40)]
    transactions := [] }

def pLow : Payload := { roundId := 0, bets := [("line2", 50)], totalAmount := none }

/-- A state in which connection "s1" has already finalized this round. -/
def stRefin : EngineState :=
  { round := { createRound 0 with
      finalBets := [("s1", { userId := 7, bets := [("line1", 10)], totalAmount := 10 })] }
    sessions := [("s1", { userId := 7, username := "alice", balance := 990 })]
    balances := [(7, 990)]
    transactions := [] }

def pRe : Payload := { roundId := 0, bets := [("line1", 10)], totalAmount := none }

/-- A submission carrying a stale round id. -/
def pMismatch : Payload := { roundId := 999, bets := [("line1", 10)], totalAmount := none }

/-- A state with no authenticated sessions at all. -/
def stEmpty : EngineState :=
  { round := createRound 0, sessions := [], balances := [], transactions := [] }

/-- An interval-loop round whose three transitions have all fired. -/
def rDone : Interval.IRound :=
  { Interval.createRound 0 with
      startAnnounced := true, freezeAnnounced := true, winningLine := some 4 }

-- ================= helper lemmas =================

theorem alookup_aset_self {κ α : Type} [DecidableEq κ] (m : List (κ × α)) (k : κ) (v : α) :
    alookup (aset m k v) k = some v := by
  induction m with
  | nil => simp [alookup, aset]
  | cons hd tl ih =>
    by_cases h : hd.1 = k
    · simp [aset, h, alookup]
    · simp [aset, h, alookup, ih]

/-- Under an authenticated session, a matching round id, an existing user
row and sufficient funds, `submit_final_bets` commits the debit and stores
the snapshot; this is the exact successor state. -/
theorem submitFinalBets_accept (st : EngineState) (sid : String) (p : Payload)
    (session : Session) (bal : Int)
    (hs : alookup st.sessions sid = some session) (h0 : session.userId ≠ 0)
    (hr : p.roundId = st.round.startTime)
    (hb : alookup st.balances session.userId = some bal)
    (hge : effectiveTotal p ≤ bal) :
    submitFinalBets st sid p =
      ({ round := { st.round with
           finalBets := aset st.round.finalBets sid
             { userId := session.userId, bets := p.bets, totalAmount := effectiveTotal p } },
         sessions := aset st.sessions sid { session with balance := bal - effectiveTotal p },
         balances := debitBalance st.balances session.userId (effectiveTotal p),
         transactions := st.transactions ++ betTxns session.userId st.round.startTime p.bets },
       SubmitResult.accepted (bal - effectiveTotal p)) := by
  simp only [submitFinalBets, hs, h0, hr, hb, if_neg (not_lt.mpr hge), ite_false,
    not_true_eq_false, ne_eq, not_false_eq_true]

/-- Every run of `submit_final_bets` either rejects with the state left
untouched, or the acceptance conditions (authenticated session, matching
round id, existing user row, sufficient funds) all hold. -/
theorem submitFinalBets_cases (st : EngineState) (sid : String) (p : Payload) :
    (∃ m, submitFinalBets st sid p = (st, SubmitResult.rejected m))
    ∨ ∃ session bal,
        alookup st.sessions sid = some session ∧ session.userId ≠ 0 ∧
        p.roundId = st.round.startTime ∧
        alookup st.balances session.userId = some bal ∧ effectiveTotal p ≤ bal := by
  cases hs : alookup st.sessions sid with
  | none => exact Or.inl ⟨"Not authenticated", by simp [submitFinalBets, hs]⟩
  | some session =>
    by_cases h0 : session.userId = 0
    · exact Or.inl ⟨"Not authenticated", by simp [submitFinalBets, hs, h0]⟩
    by_cases hr : p.roundId = st.round.startTime
    · cases hb : alookup st.balances session.userId with
      | none => exact Or.inl ⟨"User not found", by simp [submitFinalBets, hs, h0, hr, hb]⟩
      | some bal =>
        by_cases hlt : bal < effectiveTotal p
        · exact Or.inl ⟨"Insufficient balance", by simp [submitFinalBets, hs, h0, hr, hb, hlt]⟩
        · exact Or.inr ⟨session, bal, rfl, h0, hr, hb, not_lt.mp hlt⟩
    · exact Or.inl ⟨"Round mismatch", by simp [submitFinalBets, hs, h0, hr]⟩

theorem tickStart_winningLine (r : Interval.IRound) (now : Int) :
    (Interval.tickStart r now).1.winningLine = r.winningLine := by
  unfold Interval.tickStart; split <;> rfl

theorem tickStart_freezeAnnounced (r : Interval.IRound) (now : Int) :
    (Interval.tickStart r now).1.freezeAnnounced = r.freezeAnnounced := by
  unfold Interval.tickStart; split <;> rfl

theorem tickStart_freezeTime (r : Interval.IRound) (now : Int) :
    (Interval.tickStart r now).1.freezeTime = r.freezeTime := by
  unfold Interval.tickStart; split <;> rfl

theorem tickStart_resultTime (r : Interval.IRound) (now : Int) :
    (Interval.tickStart r now).1.resultTime = r.resultTime := by
  unfold Interval.tickStart; split <;> rfl

theorem tickFreeze_winningLine (r : Interval.IRound) (now : Int) :
    (Interval.tickFreeze r now).1.winningLine = r.winningLine := by
  unfold Interval.tickFreeze; split <;> rfl

theorem tickFreeze_resultTime (r : Interval.IRound) (now : Int) :
    (Interval.tickFreeze r now).1.resultTime = r.resultTime := by
  unfold Interval.tickFreeze; split <;> rfl

/-- Once the freeze moment has passed, the freeze flag is set after the
second if-block, whether or not this tick was the one that announced it. -/
theorem tickFreeze_sets_flag (r : Interval.IRound) (now : Int)
    (h : r.freezeTime ≤ now) :
    (Interval.tickFreeze r now).1.freezeAnnounced = true := by
  unfold Interval.tickFreeze
  by_cases hf : r.freezeAnnounced
  · simp [hf]
  · simp [hf, h]

/-- The third if-block redraws nothing when a non-zero winning line is
already recorded. -/
theorem tickResult_keeps_winner (r : Interval.IRound) (now : Int) (rand : Fin 5)
    (w : Nat) (hw : r.winningLine = some w) (hw0 : w ≠ 0) :
    (Interval.tickResult r now rand).1 = r := by
  unfold Interval.tickResult
  simp [hw, hw0]

-- ================= claim theorems =================

/-- Claim C1, counterexample: a finalize submission whose client-sent
`totalAmount` (5) differs from the sum of its line amounts (100) is
accepted, and the debit equals the client-sent total, not the sum: the
balance moves from 1000 to 995 while `sum(lines) = 100`.  This refutes
"the debited amount equals the sum of the snapshot's five per-line
amounts". -/
theorem c1_total_not_sum_counterexample :
    (submitFinalBets stA "s1" pCex).2 = SubmitResult.accepted 995 ∧
    sumBets pCex.bets = 100 ∧
    effectiveTotal pCex = 5 ∧
    alookup (submitFinalBets stA "s1" pCex).1.balances 7 = some 995 ∧
    (alookup (submitFinalBets stA "s1" pCex).1.round.finalBets "s1").map Snapshot.totalAmount
      = some 5 ∧
    (995 : Int) ≠ 1000 - sumBets pCex.bets := by
  decide

/-- Claim C1 (amended): for every accepted finalize submission, the debited
amount equals the snapshot's recorded total — the client-sent `totalAmount`
when it is a non-zero value, otherwise the sum of the submitted lines — the
user's ledger balance decreases by exactly that total within the one
modelled transaction, and the finalized snapshot is recorded if and only if
the debit committed: an accepted run both debits and stores the snapshot,
and a rejected run leaves the whole state untouched. -/
theorem c1_finalize_atomic_debit_amended (st : EngineState) (sid : String) (p : Payload) :
    (∀ st' nb, submitFinalBets st sid p = (st', SubmitResult.accepted nb) →
      ∃ session bal,
        alookup st.sessions sid = some session ∧
        alookup st.balances session.userId = some bal ∧
        effectiveTotal p ≤ bal ∧
        nb = bal - effectiveTotal p ∧
        st'.balances = debitBalance st.balances session.userId (effectiveTotal p) ∧
        alookup st'.round.finalBets sid =
          some { userId := session.userId, bets := p.bets, totalAmount := effectiveTotal p } ∧
        st'.transactions = st.transactions ++ betTxns session.userId st.round.startTime p.bets)
    ∧ (∀ st' m, submitFinalBets st sid p = (st', SubmitResult.rejected m) → st' = st) := by
  constructor
  · intro st' nb h
    rcases submitFinalBets_cases st sid p with ⟨m, hm⟩ | ⟨session, bal, hs, h0, hr, hb, hge⟩
    · rw [hm] at h
      simp [Prod.ext_iff] at h
    · have heq := submitFinalBets_accept st sid p session bal hs h0 hr hb hge
      rw [heq] at h
      obtain ⟨h1, h2⟩ := Prod.mk.injEq .. ▸ h
      cases h2
      refine ⟨session, bal, hs, hb, hge, rfl, ?_, ?_, ?_⟩
      · rw [← h1]
      · rw [← h1]; exact alookup_aset_self ..
      · rw [← h1]
  · intro st' m h
    rcases submitFinalBets_cases st sid p with ⟨m', hm⟩ | ⟨session, bal, hs, h0, hr, hb, hge⟩
    · rw [hm] at h
      exact ((Prod.mk.injEq .. ▸ h).1).symm
    · have heq := submitFinalBets_accept st sid p session bal hs h0 hr hb hge
      rw [heq] at h
      simp [Prod.ext_iff] at h

/-- Claim C1, witness: the amended theorem applied to the Scenario A
submission (stake 100 on line 3, balance 1000): the debit is exactly 100
and the snapshot is stored with total 100. -/
theorem c1_finalize_atomic_debit_witness :
    ∃ session bal,
      alookup stA.sessions "s1" = some session ∧
      alookup stA.balances session.userId = some bal ∧
      effectiveTotal pA ≤ bal ∧
      (900 : Int) = bal - effectiveTotal pA ∧
      (submitFinalBets stA "s1" pA).1.balances =
        debitBalance stA.balances session.userId (effectiveTotal pA) ∧
      alookup (submitFinalBets stA "s1" pA).1.round.finalBets "s1" =
        some { userId := session.userId, bets := pA.bets, totalAmount := effectiveTotal pA } ∧
      (submitFinalBets stA "s1" pA).1.transactions =
        stA.transactions ++ betTxns session.userId stA.round.startTime pA.bets := by
  exact (c1_finalize_atomic_debit_amended stA "s1" pA).1 _ 900 rfl

/-- Claim C2: a finalize submission from an authenticated session, for the
current round, whose processed total exceeds the user's current ledger
balance, is rejected with the insufficient-funds error and the engine state
— balance, ledger, sessions and the round's `finalized` map — is exactly
unchanged. -/
theorem c2_insufficient_funds_rejected (st : EngineState) (sid : String) (p : Payload)
    (session : Session) (bal : Int)
    (hs : alookup st.sessions sid = some session) (h0 : session.userId ≠ 0)
    (hr : p.roundId = st.round.startTime)
    (hb : alookup st.balances session.userId = some bal)
    (hlt : bal < effectiveTotal p) :
    submitFinalBets st sid p = (st, SubmitResult.rejected "Insufficient balance") := by
  simp [submitFinalBets, hs, h0, hr, hb, hlt]

/-- Claim C2, witness: staking 50 with balance 40 is rejected with
"Insufficient balance" and no state change. -/
theorem c2_insufficient_funds_witness :
    submitFinalBets stLow "s1" pLow = (stLow, SubmitResult.rejected "Insufficient balance") := by
  exact c2_insufficient_funds_rejected stLow "s1" pLow
    { userId := 7, username := "alice", balance := 40 } 40
    (by decide) (by decide) (by decide) (by decide) (by decide)

/-- Claim C3, code-bug evidence: at 26000 ms the round (started at 0,
freeze at 25000) is no longer OPEN — `join_game` would report
`isBettingOpen: false` — yet the `place_bet` handler, which never consults
the phase, applies the mutation to the round's wager store and acks
`success: true`.  The claim (and the spec's Scenario D) requires a
rejection here. -/
theorem c3_place_bet_after_freeze_applied :
    isBettingOpen stEmpty.round 26000 = false ∧
    (placeBet stEmpty "s1" { line := "line2", amount := 50, operation := "add" }).2.success
      = true ∧
    alookup (placeBet stEmpty "s1"
        { line := "line2", amount := 50, operation := "add" }).1.round.bets "s1" =
      some [("line1", 0), ("line2", 50), ("line3", 0), ("line4", 0), ("line5", 0)] := by
  decide

/-- Claim C4, counterexample: connection "s1" has already finalized the
current round (its snapshot is in `finalBets`) and the round is still OPEN
at the chosen instant (1000 ms < freeze at 25000 ms), yet a second
`submit_final_bets` with the matching round id is accepted again (debiting
the user once more).  This refutes both "at most once per connection per
round" and "only while the phase is not OPEN". -/
theorem c4_refinalize_open_counterexample :
    isBettingOpen stRefin.round 1000 = true ∧
    (alookup stRefin.round.finalBets "s1").isSome = true ∧
    (submitFinalBets stRefin "s1" pRe).2 = SubmitResult.accepted 980 := by
  decide

/-- Claim C4 (amended): `submit_final_bets` is accepted exactly when the
connection has an authenticated session, the submitted round id matches the
current round's start time, and the user's balance covers the processed
total — independent of the phase and of any earlier finalize by the same
connection (which is overwritten and debited again).  A submission whose
round id does not match the current round is rejected with the
round-mismatch error and causes no ledger mutation and no snapshot entry. -/
theorem c4_accept_condition_amended (st : EngineState) (sid : String) (p : Payload) :
    (isAccepted (submitFinalBets st sid p).2 = true ↔
      ∃ session bal, alookup st.sessions sid = some session ∧ session.userId ≠ 0 ∧
        p.roundId = st.round.startTime ∧
        alookup st.balances session.userId = some bal ∧ effectiveTotal p ≤ bal)
    ∧ (∀ session, alookup st.sessions sid = some session → session.userId ≠ 0 →
        p.roundId ≠ st.round.startTime →
        submitFinalBets st sid p = (st, SubmitResult.rejected "Round mismatch")) := by
  constructor
  · constructor
    · intro hacc
      rcases submitFinalBets_cases st sid p with ⟨m, hm⟩ | hok
      · rw [hm] at hacc
        simp [isAccepted] at hacc
      · exact hok
    · rintro ⟨session, bal, hs, h0, hr, hb, hge⟩
      rw [submitFinalBets_accept st sid p session bal hs h0 hr hb hge]
      rfl
  · intro session hs h0 hr
    simp [submitFinalBets, hs, h0, hr]

/-- Claim C4, witness: the round-mismatch half of the amended theorem at a
concrete stale submission (round id 999 against a round started at 0). -/
theorem c4_accept_condition_witness :
    submitFinalBets stA "s1" pMismatch = (stA, SubmitResult.rejected "Round mismatch") := by
  exact (c4_accept_condition_amended stA "s1" pMismatch).2
    { userId := 7, username := "alice", balance := 1000 } (by decide) (by decide) (by decide)

/-- Claim C5: in the interval-loop engine, a tick changes `winningLine`
only if it was unset (JS-falsy), only once the round's result moment has
been reached, and then the freeze flag is already set by the same tick's
earlier block (the FROZEN→RESULTED transition); the drawn value is
`rand + 1 ∈ {1,...,5}`; and a previously set (non-zero) winning line is
never changed by any later tick — so it is set exactly once per round. -/
theorem c5_winning_line_once_in_range (r : Interval.IRound) (now : Int) (rand : Fin 5)
    (w : Nat) (hfr : r.freezeTime ≤ r.resultTime) :
    ((Interval.tick r now rand).1.winningLine ≠ r.winningLine →
      r.winningLine.getD 0 = 0 ∧
      (Interval.tick r now rand).1.winningLine = some (rand.val + 1) ∧
      1 ≤ rand.val + 1 ∧ rand.val + 1 ≤ 5 ∧
      r.resultTime ≤ now ∧
      (Interval.tick r now rand).1.freezeAnnounced = true)
    ∧ (r.winningLine = some w → w ≠ 0 →
      (Interval.tick r now rand).1.winningLine = some w) := by
  constructor
  · intro hchange
    have hw2 : (Interval.tickFreeze (Interval.tickStart r now).1 now).1.winningLine
        = r.winningLine := by
      rw [tickFreeze_winningLine, tickStart_winningLine]
    have hr2 : (Interval.tickFreeze (Interval.tickStart r now).1 now).1.resultTime
        = r.resultTime := by
      rw [tickFreeze_resultTime, tickStart_resultTime]
    set r2 := (Interval.tickFreeze (Interval.tickStart r now).1 now).1 with hr2def
    have htick : (Interval.tick r now rand).1 = (Interval.tickResult r2 now rand).1 := rfl
    rw [htick] at hchange ⊢
    unfold Interval.tickResult at hchange ⊢
    by_cases hg : r2.winningLine.getD 0 = 0 ∧ r2.resultTime ≤ now
    · have hnow : r.resultTime ≤ now := hr2 ▸ hg.2
      have hfreeze : r2.freezeAnnounced = true := by
        rw [hr2def]
        exact tickFreeze_sets_flag _ now
          (by rw [tickStart_freezeTime]; exact le_trans hfr hnow)
      refine ⟨hw2 ▸ hg.1, ?_, Nat.le_add_left 1 _, by omega, hnow, ?_⟩
      · simp [hg]
      · simp [hg, hfreeze]
    · rw [if_neg hg] at hchange
      exact absurd hw2 hchange
  · intro hw hw0
    have : (Interval.tickResult (Interval.tickFreeze (Interval.tickStart r now).1 now).1
        now rand).1 = (Interval.tickFreeze (Interval.tickStart r now).1 now).1 :=
      tickResult_keeps_winner _ now rand w
        (by rw [tickFreeze_winningLine, tickStart_winningLine]; exact hw) hw0
    show (Interval.tickResult (Interval.tickFreeze (Interval.tickStart r now).1 now).1
        now rand).1.winningLine = some w
    rw [this, tickFreeze_winningLine, tickStart_winningLine]
    exact hw

/-- Claim C5, witness: on a fresh interval round ticked at 27000 ms with
floor-draw 2 the winning line becomes 3 ∈ {1..5} with the freeze flag set,
and a round already carrying winning line 4 keeps it. -/
theorem c5_winning_line_witness :
    (Interval.tick (Interval.createRound 0) 27000 2).1.winningLine = some 3 ∧
    (Interval.tick (Interval.createRound 0) 27000 2).1.freezeAnnounced = true ∧
    (Interval.tick rDone 99000 2).1.winningLine = some 4 := by
  have h := c5_winning_line_once_in_range (Interval.createRound 0) 27000 2 0 (by decide)
  have h4 := c5_winning_line_once_in_range rDone 99000 2 4 (by decide)
  have ha := h.1 (by decide)
  exact ⟨ha.2.1, ha.2.2.2.2.2, h4.2 rfl (by decide)⟩

/-- Claim C6: at result time, each finalized snapshot's payout is
`winAmount = amounts[winningLine] * WIN_MULTIPLIER`; the account is
credited and a "win" ledger row appended if and only if `winAmount > 0`;
and in Scenario A (stake 100 on line 3, winning line 3, multiplier 5) the
payout is 500 and the final balance is `initial - 100 + 500 = 1400`. -/
theorem c6_payout_formula (bs : List (Nat × Int)) (txns : List Txn)
    (ss : List (String × Session)) (snap : Snapshot) (winner : Nat) (rid : Int)
    (huid : snap.userId ≠ 0) :
    (0 < winAmountFor snap winner →
      (settleSnapshot bs txns ss snap winner rid).1 =
        creditBalance bs snap.userId (winAmountFor snap winner) ∧
      (settleSnapshot bs txns ss snap winner rid).2.1 =
        txns ++ [winTxn snap.userId (winAmountFor snap winner) winner rid])
    ∧ (¬ 0 < winAmountFor snap winner →
      (settleSnapshot bs txns ss snap winner rid).1 = bs ∧
      (settleSnapshot bs txns ss snap winner rid).2.1 = txns)
    ∧ (winAmountFor { userId := 7, bets := [("line3", 100)], totalAmount := 100 } 3 = 500 ∧
      alookup (submitFinalBets stA "s1" pA).1.balances 7 = some 900 ∧
      alookup (emitRoundResultAndProcess (submitFinalBets stA "s1" pA).1 2).1.balances 7 =
        some 1400 ∧
      (1400 : Int) = 1000 - 100 + 500) := by
  refine ⟨?_, ?_, by decide⟩
  · intro hpos
    constructor <;> simp [settleSnapshot, huid, hpos]
  · intro hneg
    constructor <;> simp [settleSnapshot, huid, hneg]

/-- Claim C6, witness: the positive-payout branch of the theorem at a
concrete snapshot (user 7 staked 100 on the winning line 3). -/
theorem c6_payout_witness :
    (settleSnapshot [(7, 900)] [] []
        { userId := 7, bets := [("line3", 100)], totalAmount := 100 } 3 0).1 =
      creditBalance [(7, 900)] 7
        (winAmountFor { userId := 7, bets := [("line3", 100)], totalAmount := 100 } 3) := by
  exact ((c6_payout_formula [(7, 900)] [] []
    { userId := 7, bets := [("line3", 100)], totalAmount := 100 } 3 0
    (by decide)).1 (by decide)).1

/-- Claim C7, counterexample: in the interval-loop engine (and likewise in
`server.js`) the rollover runs `currentRound = createRound()`, so the
successor's start time is the wall clock at rollover.  With the completed
round started at 0 and the rollover firing at 29000 ms, the successor
starts at 29000, not `0 + ROUND_DURATION_MS = 30000` — refuting "never the
current wall-clock time" for these variants. -/
theorem c7_interval_rollover_counterexample :
    (Interval.rolloverRound rDone 29000).startTime = 29000 ∧
    (Interval.rolloverRound rDone 29000).startTime ≠
      rDone.startTime + Interval.ROUND_DURATION_MS := by
  decide

/-- Claim C7 (amended): in the timer-based engine the `finally` block of
`emitRoundResultAndProcess` creates the successor round at
`round.startTime + ROUND_DURATION_MS`, never the wall clock (the function
takes no clock input at all), so successive round boundaries of that
variant stay on the fixed grid; the interval-loop variant and `server.js`
instead create the successor at the current wall-clock time. -/
theorem c7_grid_rollover_amended (st : EngineState) (rand : Fin 5) :
    (emitRoundResultAndProcess st rand).1.round =
      createRound (st.round.startTime + ROUND_DURATION_MS) ∧
    (emitRoundResultAndProcess st rand).1.round.startTime =
      st.round.startTime + ROUND_DURATION_MS ∧
    (emitRoundResultAndProcess st rand).1.round.freezeTime =
      st.round.startTime + ROUND_DURATION_MS + FREEZE_OFFSET_MS := by
  exact ⟨rfl, rfl, rfl⟩

/-- Claim C8: replaying a scheduled transition against a round whose
transitions have all already fired — the state of every superseded
interval-loop round — is a no-op: the tick emits no start, freeze or
result broadcast, and no second winning line is drawn (the round and its
winning line are returned unchanged). -/
theorem c8_stale_transition_noop (r : Interval.IRound) (now : Int) (rand : Fin 5)
    (w : Nat) (hs : r.startAnnounced = true) (hf : r.freezeAnnounced = true)
    (hw : r.winningLine = some w) (hw0 : w ≠ 0) :
    Interval.tick r now rand = (r, []) := by
  simp [Interval.tick, Interval.tickStart, Interval.tickFreeze, Interval.tickResult,
    hs, hf, hw, hw0]

/-- Claim C8, witness: ticking a fully completed round (all flags set,
winning line 4) at any later instant emits nothing and changes nothing. -/
theorem c8_stale_transition_witness :
    Interval.tick rDone 123456 3 = (rDone, []) := by
  exact c8_stale_transition_noop rDone 123456 3 4 rfl rfl rfl (by decide)

/-- Claim C9: the targeted `round_result` loop notifies at most one live
connection per user — exactly the first session in map iteration order
whose `userId` matches — and refreshes only that session's cached balance;
every session before it does not match, and every session after it
(matching or not) is left untouched.  When no session matches, nothing is
sent and the session map is unchanged. -/
theorem c9_notify_first_matching_session (ss : List (String × Session))
    (bs : List (Nat × Int)) (uid winner : Nat) (wa rid : Int) :
    ((∀ q ∈ ss, q.2.userId ≠ uid) ∧ notifyPayee ss bs uid winner wa rid = (ss, []))
    ∨ ∃ pre sid s post,
        ss = pre ++ (sid, s) :: post ∧
        (∀ q ∈ pre, q.2.userId ≠ uid) ∧
        s.userId = uid ∧
        notifyPayee ss bs uid winner wa rid =
          (pre ++ (sid, { s with balance := (alookup bs uid).getD s.balance }) :: post,
           [GameEvent.targetedRoundResult sid rid winner wa
             ((alookup bs uid).getD s.balance)]) := by
  induction ss with
  | nil => exact Or.inl ⟨by simp, rfl⟩
  | cons hd tl ih =>
    obtain ⟨sid, s⟩ := hd
    by_cases h : s.userId = uid
    · exact Or.inr ⟨[], sid, s, tl, by simp, by simp, h, by simp [notifyPayee, h]⟩
    · rcases ih with ⟨hall, heq⟩ | ⟨pre, sid', s', post, hsplit, hpre, hmatch, heq⟩
      · refine Or.inl ⟨?_, by simp [notifyPayee, h, heq]⟩
        intro q hq
        rcases List.mem_cons.mp hq with hq1 | hq1
        · simpa [hq1] using h
        · exact hall q hq1
      · refine Or.inr ⟨(sid, s) :: pre, sid', s', post, by simp [hsplit], ?_, hmatch,
          by simp [notifyPayee, h, heq]⟩
        intro q hq
        rcases List.mem_cons.mp hq with hq1 | hq1
        · simpa [hq1] using h
        · exact hpre q hq1

/-- Claim C10: `place_bet` applies mutations without validating its input —
on a state with no authenticated session for "s1" the mutation is still
stored in the round's wager map, the foreign key "line9" creates a new
stake entry alongside the five zeroed lines, and two "add" operations of
-50 accumulate to a stored stake of -100, so the stored WagerSet contains a
negative stake under a key outside line1..line5, acked `success: true`. -/
theorem c10_place_bet_unvalidated :
    alookup stEmpty.sessions "s1" = none ∧
    (placeBet stEmpty "s1" { line := "line9", amount := -50, operation := "add" }).2.success
      = true ∧
    alookup (placeBet (placeBet stEmpty "s1"
        { line := "line9", amount := -50, operation := "add" }).1 "s1"
        { line := "line9", amount := -50, operation := "add" }).1.round.bets "s1" =
      some [("line1", 0), ("line2", 0), ("line3", 0), ("line4", 0), ("line5", 0),
        ("line9", -100)] := by
  decide
